import Mathlib

/-!
Shallow embedding of `src/rsgi/http.rs` (granian's RSGI HTTP/WebSocket
dispatcher) and proofs about its dispatch, response materialization and
fallback behaviour.

External collaborators (the hyper types, `crate::http`, `crate::ws`,
`super::types`, `super::callbacks`) are modelled at their interface: the
callback outcomes, the upgrade-negotiation outcome and the filesystem are
parameters of the embedding, and panics (Rust `unwrap` failures) are made
explicit as an `Except` error so that fault propagation is observable.
-/

namespace Granian

/-- The header name `hyper::header::SERVER` ("server"). -/
def HK_SERVER : String := "server"

/-- Modelled from the spec: the fixed server-identification header value
`crate::http::HV_SERVER`, whose defining module is not part of the sources;
the spec only requires it to be a single fixed value. -/
def HV_SERVER : String := "granian"

/-- A response body: either in-memory bytes (`Body::from`), or a framed
byte stream over a file (`Body::wrap_stream(FramedRead::new(file, ...))`). -/
inductive Body where
  | bytes (data : String)
  | fileStream (path : String)
deriving DecidableEq

/-- A materialized wire-level response (`hyper::Response<Body>`): status,
headers, body. -/
structure Response where
  status : Nat
  headers : List (String × String)
  body : Body
deriving DecidableEq

/-- Modelled from the spec: `crate::http::response_500` (its defining module
is not part of the sources). Spec section 4.6: pure, infallible constructor —
status 500, the fixed server-identification header, empty body. -/
def response_500 : Response :=
  { status := 500, headers := [(HK_SERVER, HV_SERVER)], body := Body.bytes "" }

/-- An error recorded inside an `http::response::Builder` (a malformed part
collected by one of its fallible setters), surfaced when the builder is
finalized with `.body(...)`. -/
inductive BuildError where
  | invalid
deriving DecidableEq

/-- The `http::response::Builder`: accumulated status and headers, plus a
flag recording whether some earlier fallible operation on it failed (hyper
keeps the first error and reports it when the builder is finalized). -/
structure ResponseBuilder where
  status : Nat := 200
  headers : List (String × String) := []
  err : Bool := false
deriving DecidableEq

/-- Corresponds to `ResponseBuilder::new()`. -/
def ResponseBuilder.new : ResponseBuilder := {}

/-- Corresponds to `.status(s)` called with an already-validated
`StatusCode` value (the conversion from a `StatusCode` is infallible). -/
def ResponseBuilder.setStatus (b : ResponseBuilder) (s : Nat) : ResponseBuilder :=
  { b with status := s }

/-- Corresponds to `.header(k, v)` called with the pre-validated constants
`HK_SERVER`/`HV_SERVER` (conversion from typed header name/value is
infallible). -/
def ResponseBuilder.setHeader (b : ResponseBuilder) (k v : String) : ResponseBuilder :=
  { b with headers := b.headers ++ [(k, v)] }

/-- Corresponds to `.body(body)`: finalizes the builder, reporting any error
recorded earlier, otherwise producing the response. -/
def ResponseBuilder.buildBody (b : ResponseBuilder) (body : Body) :
    Except BuildError Response :=
  match b.err with
  | true => Except.error BuildError.invalid
  | false => Except.ok { status := b.status, headers := b.headers, body := body }

/-- A Rust panic (a failed `unwrap`), modelled as an explicit error so that
fault propagation across the dispatch boundary is observable. -/
inductive Fault where
  | panicked
deriving DecidableEq

/-- The filesystem environment: whether `tokio::fs::File::open` succeeds on
a given path. -/
def FileSystem : Type := String → Bool

/-- Corresponds to `file_body` (src/rsgi/http.rs lines 25-29):
`File::open(file_path).await.unwrap()` — a failed open panics — then the
file is wrapped as a framed byte stream. -/
def file_body (fs : FileSystem) (file_path : String) : Except Fault Body :=
  match fs file_path with
  | true => Except.ok (Body.fileStream file_path)
  | false => Except.error Fault.panicked

/-- The delivery mode of `super::types::ResponseType`. -/
inductive ResponseType where
  | Body
  | File
deriving DecidableEq

/-- The application callback's result descriptor (`pyres` in the source):
delivery mode, a response builder carrying status/headers, an in-memory
payload, and an optional file path (fields as accessed by
src/rsgi/http.rs; the type itself lives in `super::types`). -/
structure PyResponse where
  mode : ResponseType
  inner : ResponseBuilder
  body : Body
  file : Option String
deriving DecidableEq

/-- Failure of a callback invocation (the dispatcher only pattern-matches
`Ok`/everything-else, so the error payload is irrelevant). -/
inductive CallbackError where
  | failed
deriving DecidableEq

/-- Corresponds to the `handle_http_response!` macro (src/rsgi/http.rs lines
46-66), applied to an already-awaited handler outcome: on `Ok(pyres)` the
response is materialized (`Body` mode attaches the payload; `File` mode
awaits `file_body(pyres.file.unwrap())` — both `unwrap`s are potential
panics); a builder finalization error falls back to `response_500`; a
handler failure falls back to `response_500`. -/
def handle_http_response (fs : FileSystem)
    (handlerResult : Except CallbackError PyResponse) : Except Fault Response :=
  match handlerResult with
  | Except.ok pyres =>
    match pyres.mode with
    | ResponseType.Body =>
      match pyres.inner.buildBody pyres.body with
      | Except.ok res => Except.ok res
      | Except.error _ => Except.ok response_500
    | ResponseType.File =>
      match pyres.file with
      | some path =>
        match file_body fs path with
        | Except.ok fb =>
          match pyres.inner.buildBody fb with
          | Except.ok res => Except.ok res
          | Except.error _ => Except.ok response_500
        | Except.error f => Except.error f
      | none => Except.error Fault.panicked
  | Except.error _ => Except.ok response_500

/-- An inbound request as the dispatcher reads it: version, URI, method,
headers (addresses and scheme arrive separately). -/
structure Request where
  version : String
  uri : String
  method : String
  headers : List (String × String)
deriving DecidableEq

/-- The request descriptor `super::types::RSGIScope`, with the fields the
dispatcher supplies to `Scope::new`. -/
structure Scope where
  proto : String
  version : String
  scheme : String
  uri : String
  method : String
  server : String
  client : String
  headers : List (String × String)
deriving DecidableEq

/-- Corresponds to `Scope::new` as invoked by the dispatcher. -/
def Scope.new (proto version scheme uri method server client : String)
    (headers : List (String × String)) : Scope :=
  { proto := proto, version := version, scheme := scheme, uri := uri,
    method := method, server := server, client := client, headers := headers }

/-- Corresponds to `scope.set_proto(p)` from `super::types`. -/
def Scope.set_proto (s : Scope) (p : String) : Scope :=
  { s with proto := p }

/-- Corresponds to the `default_scope!` macro (src/rsgi/http.rs lines
31-44): builds a scope with protocol tag `"http"` from the request and
transport metadata. -/
def default_scope (server_addr client_addr : String) (req : Request)
    (scheme : String) : Scope :=
  Scope.new "http" req.version scheme req.uri req.method server_addr
    client_addr req.headers

/-- A plain-HTTP callback invocation (`call_rtt_http` / `call_rtb_http` from
`super::callbacks`, external to this core): given the request and scope, it
either produces a response descriptor or fails. -/
def HttpHandler : Type := Request → Scope → Except CallbackError PyResponse

/-- Corresponds to the `handle_request!` macro (src/rsgi/http.rs lines
68-82): build the default scope, invoke the handler, materialize. -/
def handle_request (handler : HttpHandler) (fs : FileSystem)
    (server_addr client_addr : String) (req : Request) (scheme : String) :
    Except Fault Response :=
  handle_http_response fs
    (handler req (default_scope server_addr client_addr req scheme))

/-- Corresponds to `handle_request!(handle_rtt, call_rtt_http)` (line 158),
with the external `call_rtt_http` as a parameter. -/
def handle_rtt (call_rtt_http : HttpHandler) : FileSystem → String → String →
    Request → String → Except Fault Response :=
  handle_request call_rtt_http

/-- Corresponds to `handle_request!(handle_rtb, call_rtb_http)` (line 159),
with the external `call_rtb_http` as a parameter. -/
def handle_rtb (call_rtb_http : HttpHandler) : FileSystem → String → String →
    Request → String → Except Fault Response :=
  handle_request call_rtb_http

/-- Corresponds to Rust `status as u16` on the callback's numeric status:
two's-complement truncation to 16 bits, i.e. the value modulo 2^16. -/
def intAsU16 (i : Int) : Nat :=
  (i % 65536).toNat

/-- Corresponds to `http::StatusCode::from_u16`: succeeds exactly on values
from 100 to 999 (the `StatusCode` validity range), fails otherwise. -/
def statusFromU16 (n : Nat) : Option Nat :=
  if 100 ≤ n ∧ n < 1000 then some n else none

/-- The builder chain at src/rsgi/http.rs lines 117-124: a fresh builder,
status `StatusCode::from_u16(status as u16).unwrap_or(StatusCode::FORBIDDEN)`,
the fixed server header, empty body. -/
def build_ws_reply (status : Int) : Except BuildError Response :=
  ((ResponseBuilder.new.setStatus
      ((statusFromU16 (intAsU16 status)).getD 403)).setHeader
    HK_SERVER HV_SERVER).buildBody (Body.bytes "")

/-- The same chain followed by the `.unwrap()` at line 124: a builder error
would be a panic inside the session task. -/
def ws_reply (status : Int) : Except Fault Response :=
  match build_ws_reply status with
  | Except.ok res => Except.ok res
  | Except.error _ => Except.error Fault.panicked

/-- The builder chain at src/rsgi/http.rs lines 143-147 followed by the
`.unwrap()`: status 400, the fixed server header, the negotiation error's
textual description (`format!("{}", err)`) as the body. -/
def build_ws_400 (err : String) : Except BuildError Response :=
  ((ResponseBuilder.new.setStatus 400).setHeader
    HK_SERVER HV_SERVER).buildBody (Body.bytes err)

/-- What the spawned session task sends on the reply channel after the
WebSocket callback invocation finishes (src/rsgi/http.rs lines 107-131),
beyond anything the callback itself transmitted: on `Ok((status, true))`
nothing; on `Ok((status, false))` the status-derived reply (whose builder
`unwrap` would be a panic); on failure, `response_500`. -/
def session_task_sends (result : Except CallbackError (Int × Bool)) :
    Except Fault (List Response) :=
  match result with
  | Except.ok (status, consumed) =>
    match consumed with
    | true => Except.ok []
    | false =>
      match ws_reply status with
      | Except.ok res => Except.ok [res]
      | Except.error f => Except.error f
  | Except.error _ => Except.ok [response_500]

/-- The outcome of the WebSocket upgrade handshake `ws_upgrade(req, None)`
(external `crate::ws::upgrade_intent`): success hands back artifacts
(opaque here), failure a displayable error. -/
def UpgradeResult : Type := Except String Unit

/-- The behaviour of one dispatch through a WebSocket-capable variant, as
far as the external collaborators decide it: whether the request is an
upgrade, the handshake outcome, the WebSocket callback's outcome, what the
callback itself pushed through the reply channel while running, whether the
spawned task was aborted before reaching its own send logic, the plain-HTTP
callback outcome, and the filesystem. -/
structure WsEnv where
  is_ws_upgrade : Bool
  ws_upgrade : UpgradeResult
  handler_ws : Except CallbackError (Int × Bool)
  ws_sent_during : List Response
  task_aborted : Bool
  handler_req : Except CallbackError PyResponse
  fs : FileSystem

/-- Everything sent on the capacity-one reply channel, in order: what the
callback pushed while running, then the session task's own send. An aborted
task (or one that panics at the builder `unwrap` before sending) contributes
nothing of its own. -/
def channel_sends (env : WsEnv) : List Response :=
  env.ws_sent_during ++
    (match env.task_aborted with
     | true => []
     | false =>
       match session_task_sends env.handler_ws with
       | Except.ok own => own
       | Except.error _ => [])

/-- What `resrx.recv().await` yields: the first value sent on the channel,
or `none` when the task finished (or died) without anything being sent. -/
def channel_recv (env : WsEnv) : Option Response :=
  (channel_sends env).head?

/-- The receive step at src/rsgi/http.rs lines 134-140: a received value is
returned and the channel is closed (`resrx.close()`, the `Bool` component);
no value means the fallback `response_500` and no close. -/
def negotiator_recv (received : Option Response) : Response × Bool :=
  match received with
  | some res => (res, true)
  | none => (response_500, false)

/-- Observable dispatch events, used to state the ordering contract on the
scope's protocol tag: scope creation (with its initial tag), the
`set_proto` rewrite, and callback invocation (with the tag the scope
carries at that moment). -/
inductive Event where
  | scopeCreated (proto : String)
  | protoSet (proto : String)
  | callbackInvoked (proto : String)
deriving DecidableEq

/-- Corresponds to the `handle_request_with_ws!` macro (src/rsgi/http.rs
lines 84-156): build the default scope; on a WebSocket upgrade request,
rewrite the protocol tag to "ws", run the handshake, spawn the session
task and await the reply channel on success, or answer 400 with the error
text on failure (its builder `unwrap` a potential panic); otherwise fall
through to the plain-HTTP path. Returns the response (or an escaped fault)
paired with the event trace. -/
def handle_request_with_ws (env : WsEnv) (server_addr client_addr : String)
    (req : Request) (scheme : String) : Except Fault Response × List Event :=
  let scope := default_scope server_addr client_addr req scheme
  match env.is_ws_upgrade with
  | true =>
    let scope := scope.set_proto "ws"
    match env.ws_upgrade with
    | Except.ok _ =>
      (Except.ok (negotiator_recv (channel_recv env)).1,
       [Event.scopeCreated "http", Event.protoSet "ws",
        Event.callbackInvoked scope.proto])
    | Except.error err =>
      (match build_ws_400 err with
       | Except.ok res => Except.ok res
       | Except.error _ => Except.error Fault.panicked,
       [Event.scopeCreated "http", Event.protoSet "ws"])
  | false =>
    (handle_http_response env.fs env.handler_req,
     [Event.scopeCreated "http", Event.callbackInvoked scope.proto])

/-- Corresponds to `handle_request_with_ws!(handle_rtt_ws, call_rtt_http,
call_rtt_ws)` (line 160): the expansion differs from `handle_rtb_ws` only
in which external callback-invocation functions decide the env's outcomes. -/
def handle_rtt_ws : WsEnv → String → String → Request → String →
    Except Fault Response × List Event :=
  handle_request_with_ws

/-- Corresponds to `handle_request_with_ws!(handle_rtb_ws, call_rtb_http,
call_rtb_ws)` (line 161). -/
def handle_rtb_ws : WsEnv → String → String → Request → String →
    Except Fault Response × List Event :=
  handle_request_with_ws

/-- Count of protocol-tag rewrites in a trace. -/
def proto_set_count (tr : List Event) : Nat :=
  tr.countP (fun e => match e with | Event.protoSet _ => true | _ => false)

/-- Holds when no protocol-tag rewrite occurs after any callback
invocation in the trace. -/
def no_set_after_invoke : List Event → Bool
  | [] => true
  | Event.callbackInvoked _ :: rest =>
    rest.all (fun e => match e with | Event.protoSet _ => false | _ => true)
      && no_set_after_invoke rest
  | _ :: rest => no_set_after_invoke rest

/-- Holds when every protocol-tag rewrite in the trace sets the tag to the
given value. -/
def all_sets_to (tr : List Event) (p : String) : Bool :=
  tr.all (fun e => match e with | Event.protoSet q => q == p | _ => true)

/-- A sample request used to evaluate the dispatcher at concrete inputs. -/
def req0 : Request :=
  { version := "HTTP/1.1", uri := "/", method := "GET", headers := [] }

/-- A filesystem on which every `File::open` succeeds. -/
def fs_open : FileSystem := fun _ => true

/-- A filesystem on which every `File::open` fails. -/
def fs_closed : FileSystem := fun _ => false

/-- A `File`-mode callback result whose file path cannot be opened on
`fs_closed`. -/
def pyres_file_missing : PyResponse :=
  { mode := ResponseType.File, inner := ResponseBuilder.new,
    body := Body.bytes "", file := some "/tmp/missing" }

/-- A non-upgrade dispatch environment whose plain-HTTP callback returns
`pyres_file_missing` over `fs_closed`. -/
def env_http_file_missing : WsEnv :=
  { is_ws_upgrade := false, ws_upgrade := Except.ok (),
    handler_ws := Except.error CallbackError.failed, ws_sent_during := [],
    task_aborted := false, handler_req := Except.ok pyres_file_missing,
    fs := fs_closed }

/-- A successful-upgrade environment whose session task dies before any
send: nothing ever arrives on the reply channel. -/
def env_ws_silent : WsEnv :=
  { is_ws_upgrade := true, ws_upgrade := Except.ok (),
    handler_ws := Except.ok (101, true), ws_sent_during := [],
    task_aborted := true, handler_req := Except.error CallbackError.failed,
    fs := fs_open }

/-- Claim C1, evaluated at the input where it fails: when the callback
returns a `File`-mode descriptor whose path cannot be opened, both the
plain `handle_rtt` dispatcher and the WebSocket-capable `handle_rtt_ws`
dispatcher let the `File::open(..).unwrap()` panic escape the dispatch
boundary instead of returning a well-formed response object. -/
theorem dispatch_fault_escape_on_file_open :
    handle_rtt (fun _ _ => Except.ok pyres_file_missing) fs_closed
        "127.0.0.1:8000" "127.0.0.1:45000" req0 "http"
      = Except.error Fault.panicked
    ∧ (handle_rtt_ws env_http_file_missing "127.0.0.1:8000" "127.0.0.1:45000"
        req0 "http").1
      = Except.error Fault.panicked :=
  ⟨rfl, rfl⟩

/-- Claim C2, evaluated at the input where it fails: a builder finalization
error does fall back to `response_500`, but a `File`-mode descriptor whose
file cannot be opened makes the materializer panic (the `unwrap` at
src/rsgi/http.rs line 26) instead of producing the 500 fallback. -/
theorem materializer_file_open_vs_spec :
    handle_http_response fs_closed
        (Except.ok { mode := ResponseType.Body,
                     inner := { status := 200, headers := [], err := true },
                     body := Body.bytes "", file := none })
      = Except.ok response_500
    ∧ handle_http_response fs_closed (Except.ok pyres_file_missing)
      = Except.error Fault.panicked :=
  ⟨rfl, rfl⟩

/-- Claim C3: whenever the request is a WebSocket upgrade attempt and the
handshake fails, the dispatcher returns exactly one response with status
400, the fixed server header, and the negotiation error's textual
description verbatim as the body. -/
theorem ws_handshake_failure_400 (env : WsEnv) (sa ca : String)
    (req : Request) (scheme : String) (e : String)
    (hup : env.is_ws_upgrade = true)
    (herr : env.ws_upgrade = Except.error e) :
    (handle_request_with_ws env sa ca req scheme).1 =
      Except.ok { status := 400, headers := [(HK_SERVER, HV_SERVER)],
                  body := Body.bytes e } := by
  simp [handle_request_with_ws, hup, herr, build_ws_400,
    ResponseBuilder.buildBody, ResponseBuilder.new, ResponseBuilder.setStatus,
    ResponseBuilder.setHeader]

/-- Witness for C3 at a concrete failing handshake. -/
theorem ws_handshake_failure_400_witness :
    (handle_request_with_ws
        { is_ws_upgrade := true, ws_upgrade := Except.error "invalid upgrade",
          handler_ws := Except.error CallbackError.failed,
          ws_sent_during := [], task_aborted := false,
          handler_req := Except.error CallbackError.failed, fs := fs_open }
        "127.0.0.1:8000" "127.0.0.1:45000" req0 "http").1 =
      Except.ok { status := 400, headers := [(HK_SERVER, HV_SERVER)],
                  body := Body.bytes "invalid upgrade" } :=
  ws_handshake_failure_400 _ "127.0.0.1:8000" "127.0.0.1:45000" req0 "http"
    "invalid upgrade" rfl rfl

/-- Claim C4: after the WebSocket callback completes, the session task
sends on the reply channel according to exactly three branches — nothing
on `(status, consumed = true)`; one response built from `status` (with any
status outside the valid 100..999 numeric range mapped to 403) on
`(status, consumed = false)`; and the fallback `response_500` when the
invocation failed. -/
theorem ws_session_task_branches (s : Int) (e : CallbackError) :
    session_task_sends (Except.ok (s, true)) = Except.ok []
    ∧ session_task_sends (Except.ok (s, false)) =
        Except.ok [{ status := (statusFromU16 (intAsU16 s)).getD 403,
                     headers := [(HK_SERVER, HV_SERVER)],
                     body := Body.bytes "" }]
    ∧ session_task_sends (Except.error e) = Except.ok [response_500]
    ∧ (statusFromU16 (intAsU16 s)).getD 403 =
        (if 100 ≤ intAsU16 s ∧ intAsU16 s < 1000 then intAsU16 s else 403) := by
  refine ⟨rfl, rfl, rfl, ?_⟩
  by_cases h : 100 ≤ intAsU16 s ∧ intAsU16 s < 1000 <;>
    simp [statusFromU16, h]

/-- Claim C5: every plain-HTTP callback invocation failure, whatever its
cause, makes the dispatcher return exactly the fixed 500 fallback — status
500, the single server header, empty body — with no error detail
surfaced. -/
theorem http_callback_failure_500 (handler : HttpHandler) (fs : FileSystem)
    (sa ca : String) (req : Request) (scheme : String) (e : CallbackError)
    (hfail : handler req (default_scope sa ca req scheme) = Except.error e) :
    handle_request handler fs sa ca req scheme = Except.ok response_500
    ∧ response_500 = { status := 500, headers := [(HK_SERVER, HV_SERVER)],
                       body := Body.bytes "" } := by
  refine ⟨?_, rfl⟩
  simp [handle_request, hfail, handle_http_response]

/-- Witness for C5 at a concrete failing callback. -/
theorem http_callback_failure_500_witness :
    handle_request (fun _ _ => Except.error CallbackError.failed) fs_open
        "127.0.0.1:8000" "127.0.0.1:45000" req0 "http"
      = Except.ok response_500
    ∧ response_500 = { status := 500, headers := [(HK_SERVER, HV_SERVER)],
                       body := Body.bytes "" } :=
  http_callback_failure_500 (fun _ _ => Except.error CallbackError.failed)
    fs_open "127.0.0.1:8000" "127.0.0.1:45000" req0 "http"
    CallbackError.failed rfl

/-- Claim C6: during a successful upgrade, when the reply channel yields no
value the negotiator returns the fallback `response_500` (and never calls
close); when it yields a value the negotiator returns that value and closes
the channel immediately after consuming it. -/
theorem ws_reply_channel_receive (env : WsEnv) (sa ca : String)
    (req : Request) (scheme : String) (hup : env.is_ws_upgrade = true)
    (hok : env.ws_upgrade = Except.ok ()) :
    (channel_recv env = none →
       (handle_request_with_ws env sa ca req scheme).1 = Except.ok response_500
       ∧ negotiator_recv (channel_recv env) = (response_500, false))
    ∧ (∀ res, channel_recv env = some res →
       (handle_request_with_ws env sa ca req scheme).1 = Except.ok res
       ∧ negotiator_recv (channel_recv env) = (res, true)) := by
  constructor
  · intro hnone
    constructor
    · simp [handle_request_with_ws, hup, hok, negotiator_recv, hnone]
    · simp [negotiator_recv, hnone]
  · intro res hsome
    constructor
    · simp [handle_request_with_ws, hup, hok, negotiator_recv, hsome]
    · simp [negotiator_recv, hsome]

/-- Witness for C6: a session task that dies without sending makes the
dispatcher return the fallback 500. -/
theorem ws_reply_channel_receive_witness :
    (handle_request_with_ws env_ws_silent "127.0.0.1:8000" "127.0.0.1:45000"
        req0 "http").1 = Except.ok response_500 :=
  ((ws_reply_channel_receive env_ws_silent "127.0.0.1:8000" "127.0.0.1:45000"
      req0 "http" rfl rfl).1 rfl).1

/-- Claim C7: the scope's protocol tag is initialized to "http"; it is
rewritten, always to "ws", exactly once when the request is a WebSocket
upgrade attempt and never otherwise; and in every dispatch trace the
rewrite never occurs after a callback invocation. -/
theorem scope_proto_lifecycle (env : WsEnv) (sa ca : String) (req : Request)
    (scheme : String) :
    (default_scope sa ca req scheme).proto = "http"
    ∧ ((handle_request_with_ws env sa ca req scheme).2).head? =
        some (Event.scopeCreated "http")
    ∧ proto_set_count (handle_request_with_ws env sa ca req scheme).2 =
        (if env.is_ws_upgrade then 1 else 0)
    ∧ all_sets_to (handle_request_with_ws env sa ca req scheme).2 "ws" = true
    ∧ no_set_after_invoke (handle_request_with_ws env sa ca req scheme).2
        = true := by
  obtain ⟨up, uw, hws, sd, ta, hr, fsys⟩ := env
  cases up
  · exact ⟨rfl, rfl, rfl, rfl, rfl⟩
  · cases uw <;> exact ⟨rfl, rfl, rfl, rfl, rfl⟩

/-- Claim C8: `handle_rtt` and `handle_rtb` are both the shared
`handle_request` dispatch applied to their respective callback-invocation
functions, and for equal callback results they produce identical responses;
the two WebSocket-capable expansions are likewise the same dispatch. -/
theorem rtt_rtb_equivalence (h1 h2 : HttpHandler) (fs : FileSystem)
    (sa ca : String) (req : Request) (scheme : String)
    (hsame : h1 req (default_scope sa ca req scheme) =
             h2 req (default_scope sa ca req scheme)) :
    handle_rtt h1 = handle_request h1
    ∧ handle_rtb h2 = handle_request h2
    ∧ handle_rtt h1 fs sa ca req scheme = handle_rtb h2 fs sa ca req scheme
    ∧ handle_rtt_ws = handle_rtb_ws := by
  refine ⟨rfl, rfl, ?_, rfl⟩
  simp [handle_rtt, handle_rtb, handle_request, hsame]

/-- Witness for C8 at two syntactically distinct handlers with equal
results. -/
theorem rtt_rtb_equivalence_witness :
    handle_rtt (fun _ _ => Except.error CallbackError.failed) fs_open
        "127.0.0.1:8000" "127.0.0.1:45000" req0 "http"
      = handle_rtb (fun _r _ => Except.error CallbackError.failed) fs_open
        "127.0.0.1:8000" "127.0.0.1:45000" req0 "http" :=
  (rtt_rtb_equivalence (fun _ _ => Except.error CallbackError.failed)
    (fun _r _ => Except.error CallbackError.failed) fs_open
    "127.0.0.1:8000" "127.0.0.1:45000" req0 "http" rfl).2.2.1

/-- Claim C9: every response this core constructs directly — the fallback
500, the 400 handshake-failure response, and the status-derived WebSocket
reply — carries exactly the single fixed server-identification header,
while a callback-produced response passes through the materializer with
exactly the headers its builder carried. -/
theorem direct_responses_server_header (e : String) (s : Int) (st : Nat)
    (hs : List (String × String)) (pay : Body) (f : Option String)
    (fs : FileSystem) :
    response_500.headers = [(HK_SERVER, HV_SERVER)]
    ∧ (build_ws_400 e).toOption.map Response.headers =
        some [(HK_SERVER, HV_SERVER)]
    ∧ (build_ws_reply s).toOption.map Response.headers =
        some [(HK_SERVER, HV_SERVER)]
    ∧ handle_http_response fs
        (Except.ok { mode := ResponseType.Body,
                     inner := { status := st, headers := hs, err := false },
                     body := pay, file := f })
      = Except.ok { status := st, headers := hs, body := pay } :=
  ⟨rfl, rfl, rfl, rfl⟩

/-- Claim C10: the two responses the dispatcher finalizes with an `unwrap`
can never hit the builder's error branch — for every callback status the
WebSocket reply builds to a response (so the in-task `unwrap` of `ws_reply`
cannot panic), and for every error text the 400 handshake-failure response
builds to a response. -/
theorem ws_builder_infallible (s : Int) (e : String) :
    build_ws_reply s =
      Except.ok { status := (statusFromU16 (intAsU16 s)).getD 403,
                  headers := [(HK_SERVER, HV_SERVER)], body := Body.bytes "" }
    ∧ build_ws_400 e =
      Except.ok { status := 400, headers := [(HK_SERVER, HV_SERVER)],
                  body := Body.bytes e }
    ∧ ws_reply s =
      Except.ok { status := (statusFromU16 (intAsU16 s)).getD 403,
                  headers := [(HK_SERVER, HV_SERVER)],
                  body := Body.bytes "" } :=
  ⟨rfl, rfl, rfl⟩

end Granian
